import Mathlib

/- Shallow embedding of src/src/statusnotifier.c (the statusnotifier library).
   Pure data is modelled directly; the GObject instance (StatusNotifierItemPrivate)
   becomes the structure SnState; every C function that mutates the instance or
   talks to the bus becomes a Lean function returning the new state together with
   a trace of observable emissions (local property notifications, DBus wire
   signals, the registration-failed GObject signal, domain events delivered to
   the owner, empty method replies, and environment consultations). -/

/-- The four icon slots, in the order of the C enum StatusNotifierIcon
(the order used by the arrays prop_name_from_icon / prop_pixbuf_from_icon). -/
inductive SnIcon
  | mainIcon
  | attentionIcon
  | overlayIcon
  | tooltipIcon
  deriving DecidableEq

/-- StatusNotifierStatus, order of the s_status label array. -/
inductive SnStatus
  | passive
  | active
  | needsAttention
  deriving DecidableEq

/-- StatusNotifierCategory, order of the s_category label array. -/
inductive SnCategory
  | applicationStatus
  | communications
  | systemServices
  | hardware
  deriving DecidableEq

/-- StatusNotifierState (registration state of the item). -/
inductive SnRegState
  | notRegistered
  | registering
  | registered
  | failed
  deriving DecidableEq

/-- Error kinds of the STATUS_NOTIFIER_ERROR domain, plus external for GErrors
passed through from GIO (object registration / proxy / register call failures). -/
inductive SnError
  | noConnection
  | noName
  | noWatcher
  | noHost
  | external
  deriving DecidableEq

/-- The GObject property ids of the item (enum at the top of statusnotifier.c). -/
inductive PropId
  | propId
  | propTitle
  | propCategory
  | propStatus
  | mainIconName
  | mainIconPixbuf
  | overlayIconName
  | overlayIconPixbuf
  | attentionIconName
  | attentionIconPixbuf
  | attentionMovieName
  | tooltipIconName
  | tooltipIconPixbuf
  | tooltipTitle
  | tooltipBody
  | itemIsMenu
  | menu
  | windowId
  | regState
  | registerNameOnBus
  deriving DecidableEq

/-- A GdkPixbuf together with the ARGB32 words of the cairo image surface the
codec paints it onto (stride padding included); each word is a 32-bit value in
host (native) word order, as cairo_image_surface_get_data exposes them. -/
structure Pixbuf where
  width : Int
  height : Int
  argbWords : List Nat
  deriving DecidableEq

/-- The union member of the per-icon struct of StatusNotifierItemPrivate: the C
union physically holds either the icon_name pointer (possibly NULL) or the
pixbuf pointer; reads of the inactive member never happen in the code paths
modelled here. -/
inductive IconData
  | strData (s : Option String)
  | pixData (p : Pixbuf)
  deriving DecidableEq

/-- One slot of priv->icon[]: the has_pixbuf tag plus the union. -/
structure IconSlot where
  has_pixbuf : Bool
  data : IconData
  deriving DecidableEq

/-- Orientation delivered with the scroll domain event. -/
inductive ScrollOrientation
  | vertical
  | horizontal
  deriving DecidableEq

/-- DBus signals emitted on the item interface (dbus_notify). -/
inductive WireSignal
  | newStatus (s : String)
  | newTitle
  | newIcon
  | newAttentionIcon
  | newOverlayIcon
  | newToolTip
  deriving DecidableEq

/-- Domain events delivered to the owner via GObject signals (method_call). -/
inductive DomainSig
  | contextMenu (x y : Int)
  | activate (x y : Int)
  | secondaryActivate (x y : Int)
  | scroll (delta : Int) (o : ScrollOrientation)
  deriving DecidableEq

/-- Observable effects of the embedded functions, in order of occurrence. -/
inductive Emission
  | localNotify (p : PropId)
  | wire (w : WireSignal)
  | regFailed (e : SnError)
  | domainEvent (d : DomainSig)
  | methodReply
  | envConsult
  deriving DecidableEq

/-- StatusNotifierItemPrivate: all the instance state the modelled code touches.
The bus handles (watch id, signal handler id, owner id, registration id) are
kept as Nat with 0 meaning "none", as in the C; the proxy and connection
pointers become presence booleans. -/
structure SnState where
  id : Option String
  category : SnCategory
  title : Option String
  status : SnStatus
  icon : SnIcon → IconSlot
  attention_movie_name : Option String
  tooltip_title : Option String
  tooltip_body : Option String
  window_id : Nat
  item_is_menu : Bool
  tooltip_freeze : Nat
  state : SnRegState
  dbus_watch_id : Nat
  dbus_sid : Nat
  dbus_owner_id : Nat
  dbus_reg_id : Nat
  register_bus_name : Int
  dbus_proxy : Bool
  dbus_conn : Bool

/-- The s_status label array of dbus_notify / get_prop. -/
def statusLabel : SnStatus → String
  | .passive => "Passive"
  | .active => "Active"
  | .needsAttention => "NeedsAttention"

/-- The s_category label array of get_prop. -/
def categoryLabel : SnCategory → String
  | .applicationStatus => "ApplicationStatus"
  | .communications => "Communications"
  | .systemServices => "SystemServices"
  | .hardware => "Hardware"

/-- prop_name_from_icon array. -/
def prop_name_from_icon : SnIcon → PropId
  | .mainIcon => .mainIconName
  | .attentionIcon => .attentionIconName
  | .overlayIcon => .overlayIconName
  | .tooltipIcon => .tooltipIconName

/-- prop_pixbuf_from_icon array. -/
def prop_pixbuf_from_icon : SnIcon → PropId
  | .mainIcon => .mainIconPixbuf
  | .attentionIcon => .attentionIconPixbuf
  | .overlayIcon => .overlayIconPixbuf
  | .tooltipIcon => .tooltipIconPixbuf

/-- dbus_notify: emits the DBus signal corresponding to a property change,
and emits nothing at all unless the item is registered. The default branch of
the C switch is g_return_if_reached (a warning, no emission). -/
def dbus_notify (sn : SnState) (prop : PropId) : List Emission :=
  if sn.state ≠ SnRegState.registered then []
  else
    match prop with
    | .propStatus => [.wire (.newStatus (statusLabel sn.status))]
    | .propTitle => [.wire .newTitle]
    | .mainIconName => [.wire .newIcon]
    | .mainIconPixbuf => [.wire .newIcon]
    | .attentionIconName => [.wire .newAttentionIcon]
    | .attentionIconPixbuf => [.wire .newAttentionIcon]
    | .overlayIconName => [.wire .newOverlayIcon]
    | .overlayIconPixbuf => [.wire .newOverlayIcon]
    | .tooltipTitle => [.wire .newToolTip]
    | .tooltipBody => [.wire .newToolTip]
    | .tooltipIconName => [.wire .newToolTip]
    | .tooltipIconPixbuf => [.wire .newToolTip]
    | _ => []

/-- Little-endian memory bytes of a 32-bit word. -/
def bytesLE (w : Nat) : List Nat :=
  [w % 256, w / 256 % 256, w / 65536 % 256, w / 16777216 % 256]

/-- Big-endian memory bytes of a 32-bit word. -/
def bytesBE (w : Nat) : List Nat :=
  [w / 16777216 % 256, w / 65536 % 256, w / 256 % 256, w % 256]

/-- GUINT_TO_BE on a little-endian host: the 4-byte swap of a 32-bit word. -/
def byteSwap32 (w : Nat) : Nat :=
  (w % 256) * 16777216 + (w / 256 % 256) * 65536 + (w / 65536 % 256) * 256 + w / 16777216 % 256

/-- Memory bytes of one 32-bit word as laid out by the host. -/
def hostWordBytes (littleEndian : Bool) (w : Nat) : List Nat :=
  if littleEndian then bytesLE w else bytesBE w

/-- get_builder_for_icon_pixmap: returns NULL when the slot has no pixbuf;
otherwise builds the single (width, height, bytes) tuple, where the byte
sequence is the surface memory after the per-word GUINT_TO_BE swap performed
only on little-endian hosts. -/
def get_builder_for_icon_pixmap (littleEndian : Bool) (slot : IconSlot) :
    Option (Int × Int × List Nat) :=
  if ¬ slot.has_pixbuf then none
  else
    match slot.data with
    | .pixData p =>
        let data := if littleEndian then p.argbWords.map byteSwap32 else p.argbWords
        some (p.width, p.height, data.flatMap (hostWordBytes littleEndian))
    | .strData _ => none

/-- The wire signals contained in an emission trace. -/
def wireOf (es : List Emission) : List WireSignal :=
  es.filterMap fun e => match e with | .wire w => some w | _ => none

/-- How many times a trace consulted the sandbox marker in the environment. -/
def envConsults (es : List Emission) : Nat :=
  (es.filter fun e => decide (e = Emission.envConsult)).length

/-- free_icon: releases whichever representation the slot holds, then resets
the tag to FALSE and the union to a NULL icon_name. -/
def free_icon (sn : SnState) (icon : SnIcon) : SnState :=
  { sn with icon := Function.update sn.icon icon ⟨false, .strData none⟩ }

/-- status_notifier_item_set_from_pixbuf: free_icon, then store the pixbuf with
the tag set; notifies the name property locally (as the C does) and asks
dbus_notify unless the slot is the tooltip icon while the tooltip is frozen. -/
def status_notifier_item_set_from_pixbuf (sn : SnState) (icon : SnIcon) (pixbuf : Pixbuf) :
    SnState × List Emission :=
  let sn₀ := free_icon sn icon
  let sn₁ := { sn₀ with icon := Function.update sn₀.icon icon ⟨true, .pixData pixbuf⟩ }
  (sn₁, Emission.localNotify (prop_name_from_icon icon) ::
    (if icon ≠ SnIcon.tooltipIcon ∨ sn₁.tooltip_freeze = 0 then
      dbus_notify sn₁ (prop_name_from_icon icon) else []))

/-- status_notifier_item_set_from_icon_name: free_icon, then store the (copied)
name in the union, leaving the tag as free_icon left it; notifies the pixbuf
property locally (as the C does) and asks dbus_notify for the name property
unless the slot is the tooltip icon while the tooltip is frozen. -/
def status_notifier_item_set_from_icon_name (sn : SnState) (icon : SnIcon)
    (icon_name : Option String) : SnState × List Emission :=
  let sn₀ := free_icon sn icon
  let sn₁ := { sn₀ with
    icon := Function.update sn₀.icon icon ⟨(sn₀.icon icon).has_pixbuf, .strData icon_name⟩ }
  (sn₁, Emission.localNotify (prop_pixbuf_from_icon icon) ::
    (if icon ≠ SnIcon.tooltipIcon ∨ sn₁.tooltip_freeze = 0 then
      dbus_notify sn₁ (prop_name_from_icon icon) else []))

/-- status_notifier_item_set_attention_movie_name: stores the name and raises
only the local notification (the C calls notify but not dbus_notify). -/
def status_notifier_item_set_attention_movie_name (sn : SnState)
    (movie_name : Option String) : SnState × List Emission :=
  ({ sn with attention_movie_name := movie_name }, [.localNotify .attentionMovieName])

/-- status_notifier_item_set_title. -/
def status_notifier_item_set_title (sn : SnState) (title : Option String) :
    SnState × List Emission :=
  let sn₁ := { sn with title := title }
  (sn₁, .localNotify .propTitle :: dbus_notify sn₁ .propTitle)

/-- status_notifier_item_set_status. -/
def status_notifier_item_set_status (sn : SnState) (status : SnStatus) :
    SnState × List Emission :=
  let sn₁ := { sn with status := status }
  (sn₁, .localNotify .propStatus :: dbus_notify sn₁ .propStatus)

/-- status_notifier_item_set_window_id: stores the id and raises only the local
notification (the C calls notify but not dbus_notify). -/
def status_notifier_item_set_window_id (sn : SnState) (window_id : Nat) :
    SnState × List Emission :=
  ({ sn with window_id := window_id }, [.localNotify .windowId])

/-- status_notifier_item_set_item_is_menu: stores the flag; the C raises no
notification of any kind here. -/
def status_notifier_item_set_item_is_menu (sn : SnState) (is_menu : Bool) :
    SnState × List Emission :=
  ({ sn with item_is_menu := is_menu }, [])

/-- status_notifier_item_freeze_tooltip: increments the freeze count. -/
def status_notifier_item_freeze_tooltip (sn : SnState) : SnState × List Emission :=
  ({ sn with tooltip_freeze := sn.tooltip_freeze + 1 }, [])

/-- status_notifier_item_thaw_tooltip: g_return_if_fail when the count is zero
(third component true marks the contract violation, state untouched, nothing
emitted); otherwise decrements and, when the count reaches zero, emits the
tooltip DBus signal via dbus_notify. -/
def status_notifier_item_thaw_tooltip (sn : SnState) : SnState × List Emission × Bool :=
  if sn.tooltip_freeze = 0 then (sn, [], true)
  else
    if sn.tooltip_freeze - 1 = 0 then
      ({ sn with tooltip_freeze := sn.tooltip_freeze - 1 },
        dbus_notify { sn with tooltip_freeze := sn.tooltip_freeze - 1 } .tooltipTitle, false)
    else ({ sn with tooltip_freeze := sn.tooltip_freeze - 1 }, [], false)

/-- status_notifier_item_set_tooltip_title. -/
def status_notifier_item_set_tooltip_title (sn : SnState) (title : Option String) :
    SnState × List Emission :=
  let sn₁ := { sn with tooltip_title := title }
  (sn₁, .localNotify .tooltipTitle ::
    (if sn₁.tooltip_freeze = 0 then dbus_notify sn₁ .tooltipTitle else []))

/-- status_notifier_item_set_tooltip_body. -/
def status_notifier_item_set_tooltip_body (sn : SnState) (body : Option String) :
    SnState × List Emission :=
  let sn₁ := { sn with tooltip_body := body }
  (sn₁, .localNotify .tooltipBody ::
    (if sn₁.tooltip_freeze = 0 then dbus_notify sn₁ .tooltipBody else []))

/-- status_notifier_item_set_tooltip: one implicit freeze around the three
tooltip setters, then thaw. -/
def status_notifier_item_set_tooltip (sn : SnState) (icon_name title body : Option String) :
    SnState × List Emission :=
  let sn₀ := { sn with tooltip_freeze := sn.tooltip_freeze + 1 }
  let r₁ := status_notifier_item_set_from_icon_name sn₀ SnIcon.tooltipIcon icon_name
  let r₂ := status_notifier_item_set_tooltip_title r₁.1 title
  let r₃ := status_notifier_item_set_tooltip_body r₂.1 body
  let r₄ := status_notifier_item_thaw_tooltip r₃.1
  (r₄.1, r₁.2 ++ r₂.2 ++ r₃.2 ++ r₄.2.1)

/-- status_notifier_item_set_tooltip_with_pixbuf: like set_tooltip but with a
pixbuf for the tooltip icon. -/
def status_notifier_item_set_tooltip_with_pixbuf (sn : SnState) (pixbuf : Pixbuf)
    (title body : Option String) : SnState × List Emission :=
  let sn₀ := { sn with tooltip_freeze := sn.tooltip_freeze + 1 }
  let r₁ := status_notifier_item_set_from_pixbuf sn₀ SnIcon.tooltipIcon pixbuf
  let r₂ := status_notifier_item_set_tooltip_title r₁.1 title
  let r₃ := status_notifier_item_set_tooltip_body r₂.1 body
  let r₄ := status_notifier_item_thaw_tooltip r₃.1
  (r₄.1, r₁.2 ++ r₂.2 ++ r₃.2 ++ r₄.2.1)

/-- dbus_free: releases every bus resource the item holds (each release in the
C is guarded by a presence test; the net effect is that all handles are gone). -/
def dbus_free (sn : SnState) : SnState :=
  { sn with dbus_watch_id := 0, dbus_sid := 0, dbus_owner_id := 0,
            dbus_proxy := false, dbus_reg_id := 0, dbus_conn := false }

/-- dbus_failed: tears everything down via dbus_free, moves to FAILED (with the
local state notification) only when the failure is fatal, and emits the
registration-failed GObject signal. -/
def dbus_failed (sn : SnState) (err : SnError) (fatal : Bool) : SnState × List Emission :=
  let sn₁ := dbus_free sn
  if fatal then
    ({ sn₁ with state := .failed }, [.localNotify .regState, .regFailed err])
  else (sn₁, [.regFailed err])

/-- bus_acquired: registers the item object on the connection; a registration
failure is fatal, otherwise the registration id and the connection are kept. -/
def bus_acquired (sn : SnState) (registerObjectOk : Bool) : SnState × List Emission :=
  if ¬ registerObjectOk then dbus_failed sn .external true
  else ({ sn with dbus_reg_id := 1, dbus_conn := true }, [])

/-- register_item_cb: completion of the RegisterStatusNotifierItem call; failure
is fatal, success moves the state to REGISTERED with a local notification. -/
def register_item_cb (sn : SnState) (callOk : Bool) : SnState × List Emission :=
  if ¬ callOk then dbus_failed sn .external true
  else ({ sn with state := .registered }, [.localNotify .regState])

/-- name_acquired: starts the asynchronous RegisterStatusNotifierItem call
(whose completion is register_item_cb) and drops the proxy reference. -/
def name_acquired (sn : SnState) : SnState :=
  { sn with dbus_proxy := false }

/-- name_lost: NO_CONNECTION when no connection could be established, NO_NAME
otherwise; both fatal. -/
def name_lost (sn : SnState) (connPresent : Bool) : SnState × List Emission :=
  if ¬ connPresent then dbus_failed sn .noConnection true
  else dbus_failed sn .noName true

/-- should_register_name: when the register-name-on-bus property is still -1,
tests for /.flatpak-info once for this item, overwrites the property with the
detected 0/1 and notifies it; returns the truthiness of the field. -/
def should_register_name (flatpakInfoExists : Bool) (sn : SnState) :
    Bool × SnState × List Emission :=
  if sn.register_bus_name = -1 then
    let v : Int := if flatpakInfoExists then 0 else 1
    (decide (v ≠ 0), { sn with register_bus_name := v },
      [.envConsult, .localNotify .registerNameOnBus])
  else (decide (sn.register_bus_name ≠ 0), sn, [])

/-- dbus_reg_item: when no bus name is to be claimed, runs bus_acquired on the
proxy's connection and name_acquired immediately; otherwise starts g_bus_own_name
(its asynchronous callbacks are bus_acquired, name_acquired and name_lost). -/
def dbus_reg_item (sn : SnState) (flatpakInfoExists registerObjectOk : Bool) :
    SnState × List Emission :=
  let r := should_register_name flatpakInfoExists sn
  if ¬ r.1 then
    let rb := bus_acquired r.2.1 registerObjectOk
    (name_acquired rb.1, r.2.2 ++ rb.2)
  else
    ({ r.2.1 with dbus_owner_id := 1 }, r.2.2)

/-- proxy_cb: completion of the watcher proxy creation. A proxy failure is
fatal. When no host is registered on the watcher, a non-fatal NO_HOST failure
is reported with the proxy saved across dbus_failed, and the host-registered
signal subscription is armed; otherwise registration proceeds. -/
def proxy_cb (sn : SnState) (proxyOk hostRegistered flatpakInfoExists registerObjectOk : Bool) :
    SnState × List Emission :=
  if ¬ proxyOk then dbus_failed sn .external true
  else
    let sn₀ := { sn with dbus_proxy := true }
    if ¬ hostRegistered then
      let sn₁ := { sn₀ with dbus_proxy := false }
      let r := dbus_failed sn₁ .noHost false
      ({ r.1 with dbus_proxy := true, dbus_sid := 1 }, r.2)
    else
      dbus_reg_item sn₀ flatpakInfoExists registerObjectOk

/-- watcher_appeared: stops the name watch and starts the asynchronous watcher
proxy creation (whose completion is proxy_cb). -/
def watcher_appeared (sn : SnState) : SnState :=
  { sn with dbus_watch_id := 0 }

/-- watcher_vanished: saves the watch id so dbus_free does not unwatch, reports
a non-fatal NO_WATCHER failure, then restores the watch id: the watch stays
armed so registration resumes when a watcher shows up. -/
def watcher_vanished (sn : SnState) : SnState × List Emission :=
  let savedWatchId := sn.dbus_watch_id
  let sn₀ := { sn with dbus_watch_id := 0 }
  let r := dbus_failed sn₀ .noWatcher false
  ({ r.1 with dbus_watch_id := savedWatchId }, r.2)

/-- watcher_signal: on StatusNotifierHostRegistered, disconnects the host
subscription and proceeds with dbus_reg_item; other signals are ignored. -/
def watcher_signal (sn : SnState) (signalName : String)
    (flatpakInfoExists registerObjectOk : Bool) : SnState × List Emission :=
  if signalName = "StatusNotifierHostRegistered" then
    dbus_reg_item { sn with dbus_sid := 0 } flatpakInfoExists registerObjectOk
  else (sn, [])

/-- status_notifier_item_register: a no-op while REGISTERING or REGISTERED;
otherwise moves to REGISTERING and arms the watch on the watcher's well-known
name. -/
def status_notifier_item_register (sn : SnState) : SnState :=
  if sn.state = SnRegState.registering ∨ sn.state = SnRegState.registered then sn
  else { sn with state := .registering, dbus_watch_id := 1 }

/-- An inbound DBus method call on the item interface. -/
inductive Method
  | contextMenu (x y : Int)
  | activate (x y : Int)
  | secondaryActivate (x y : Int)
  | scroll (delta : Int) (s_orientation : String)
  deriving DecidableEq

/-- g_ascii_tolower on one character: shifts ASCII upper-case letters down. -/
def g_ascii_tolower (c : Char) : Char :=
  if 65 ≤ c.toNat ∧ c.toNat ≤ 90 then Char.ofNat (c.toNat + 32) else c

/-- Whether g_ascii_strcasecmp of the two strings returns zero: the strings are
equal after per-character ASCII lower-casing. -/
def g_ascii_strcaseeq (a b : String) : Bool :=
  a.toList.map g_ascii_tolower == b.toList.map g_ascii_tolower

/-- method_call: translates each inbound method into the owner-facing GObject
signal and acknowledges with an empty reply; for Scroll, any string that does
not match the vertical label case-insensitively becomes horizontal. -/
def method_call (m : Method) : List Emission :=
  match m with
  | .contextMenu x y => [.domainEvent (.contextMenu x y), .methodReply]
  | .activate x y => [.domainEvent (.activate x y), .methodReply]
  | .secondaryActivate x y => [.domainEvent (.secondaryActivate x y), .methodReply]
  | .scroll delta s =>
      let o := if g_ascii_strcaseeq s (("vertical" : String)) then
        ScrollOrientation.vertical else ScrollOrientation.horizontal
      [.domainEvent (.scroll delta o), .methodReply]

/-- The orientation carried by the first scroll domain event of a trace. -/
def scrollOrientationOf (es : List Emission) : Option ScrollOrientation :=
  es.findSome? fun e => match e with
    | .domainEvent (.scroll _ o) => some o
    | _ => none

/-- The value of one DBus property as built by get_prop. -/
inductive PropValue
  | str (s : Option String)
  | pixmapList (l : List (Int × Int × List Nat))
  | int32 (n : Nat)
  | boolean (b : Bool)
  | toolTip (icon_name : Option String) (pixmaps : List (Int × Int × List Nat))
      (title body : String)
  | objectPath (s : String)
  deriving DecidableEq

/-- The string handed out for an icon-name property: the icon_name union member
(empty when NULL) when no pixbuf is set, the empty string otherwise. -/
def icon_name_prop (sn : SnState) (icon : SnIcon) : String :=
  if ¬ (sn.icon icon).has_pixbuf then
    match (sn.icon icon).data with
    | .strData s => s.getD (("" : String))
    | .pixData _ => ""
  else ""

/-- The array handed out for a pixmap property: empty when
get_builder_for_icon_pixmap returns NULL, a single tuple otherwise. -/
def pixmap_prop (littleEndian : Bool) (sn : SnState) (icon : SnIcon) :
    List (Int × Int × List Nat) :=
  match get_builder_for_icon_pixmap littleEndian (sn.icon icon) with
  | none => []
  | some t => [t]

/-- get_prop: answers a property read by name. Note that Id hands out the raw
id field with no empty-string fallback, unlike Title, AttentionMovieName and
the tooltip strings. An unknown name hits g_return_val_if_reached (NULL). -/
def get_prop (littleEndian : Bool) (sn : SnState) (property : String) : Option PropValue :=
  if property = (("Id" : String)) then some (.str sn.id)
  else if property = (("Category" : String)) then
    some (.str (some (categoryLabel sn.category)))
  else if property = (("Title" : String)) then
    some (.str (some (sn.title.getD (("" : String)))))
  else if property = (("Status" : String)) then
    some (.str (some (statusLabel sn.status)))
  else if property = (("WindowId" : String)) then some (.int32 sn.window_id)
  else if property = (("IconName" : String)) then
    some (.str (some (icon_name_prop sn SnIcon.mainIcon)))
  else if property = (("IconPixmap" : String)) then
    some (.pixmapList (pixmap_prop littleEndian sn SnIcon.mainIcon))
  else if property = (("OverlayIconName" : String)) then
    some (.str (some (icon_name_prop sn SnIcon.overlayIcon)))
  else if property = (("OverlayIconPixmap" : String)) then
    some (.pixmapList (pixmap_prop littleEndian sn SnIcon.overlayIcon))
  else if property = (("AttentionIconName" : String)) then
    some (.str (some (icon_name_prop sn SnIcon.attentionIcon)))
  else if property = (("AttentionIconPixmap" : String)) then
    some (.pixmapList (pixmap_prop littleEndian sn SnIcon.attentionIcon))
  else if property = (("AttentionMovieName" : String)) then
    some (.str (some (sn.attention_movie_name.getD (("" : String)))))
  else if property = (("ToolTip" : String)) then
    (if ¬ (sn.icon SnIcon.tooltipIcon).has_pixbuf then
      some (.toolTip
        (some (match (sn.icon SnIcon.tooltipIcon).data with
          | .strData s => s.getD (("" : String))
          | .pixData _ => ""))
        []
        (sn.tooltip_title.getD (("" : String)))
        (sn.tooltip_body.getD (("" : String))))
    else
      some (.toolTip (some (("" : String)))
        (pixmap_prop littleEndian sn SnIcon.tooltipIcon)
        (sn.tooltip_title.getD (("" : String)))
        (sn.tooltip_body.getD (("" : String)))))
  else if property = (("ItemIsMenu" : String)) then some (.boolean sn.item_is_menu)
  else if property = (("Menu" : String)) then
    some (.objectPath (("/NO_DBUSMENU" : String)))
  else none

/-- The public mutating operations of the item API. -/
inductive SnOp
  | opSetTitle (s : Option String)
  | opSetStatus (st : SnStatus)
  | opSetFromIconName (i : SnIcon) (s : Option String)
  | opSetFromPixbuf (i : SnIcon) (p : Pixbuf)
  | opSetAttentionMovieName (s : Option String)
  | opSetTooltipTitle (s : Option String)
  | opSetTooltipBody (s : Option String)
  | opSetWindowId (w : Nat)
  | opSetItemIsMenu (b : Bool)
  | opFreezeTooltip
  | opThawTooltip
  | opSetTooltip (icon_name title body : Option String)
  | opSetTooltipWithPixbuf (p : Pixbuf) (title body : Option String)
  | opRegister

/-- Dispatch of one public operation. -/
def applyOp (op : SnOp) (sn : SnState) : SnState × List Emission :=
  match op with
  | .opSetTitle s => status_notifier_item_set_title sn s
  | .opSetStatus st => status_notifier_item_set_status sn st
  | .opSetFromIconName i s => status_notifier_item_set_from_icon_name sn i s
  | .opSetFromPixbuf i p => status_notifier_item_set_from_pixbuf sn i p
  | .opSetAttentionMovieName s => status_notifier_item_set_attention_movie_name sn s
  | .opSetTooltipTitle s => status_notifier_item_set_tooltip_title sn s
  | .opSetTooltipBody s => status_notifier_item_set_tooltip_body sn s
  | .opSetWindowId w => status_notifier_item_set_window_id sn w
  | .opSetItemIsMenu b => status_notifier_item_set_item_is_menu sn b
  | .opFreezeTooltip => status_notifier_item_freeze_tooltip sn
  | .opThawTooltip =>
      let r := status_notifier_item_thaw_tooltip sn
      (r.1, r.2.1)
  | .opSetTooltip a t b => status_notifier_item_set_tooltip sn a t b
  | .opSetTooltipWithPixbuf p t b => status_notifier_item_set_tooltip_with_pixbuf sn p t b
  | .opRegister => (status_notifier_item_register sn, [])

/-- A freshly constructed item (g_object_new zero-fills the instance; id,
category and register-name-on-bus are the construct properties). -/
def mkItem (theId : Option String) (cat : SnCategory) (rbn : Int) : SnState :=
  { id := theId
    category := cat
    title := none
    status := .passive
    icon := fun _ => ⟨false, .strData none⟩
    attention_movie_name := none
    tooltip_title := none
    tooltip_body := none
    window_id := 0
    item_is_menu := false
    tooltip_freeze := 0
    state := .notRegistered
    dbus_watch_id := 0
    dbus_sid := 0
    dbus_owner_id := 0
    dbus_reg_id := 0
    register_bus_name := rbn
    dbus_proxy := false
    dbus_conn := false }

/-- A mutation of one of the tooltip fields (the operations whose DBus signal
is subject to the freeze count). -/
inductive TtMut
  | mutTitle (s : Option String)
  | mutBody (s : Option String)
  | mutIconName (s : Option String)
  | mutIconPix (p : Pixbuf)

/-- Dispatch of one tooltip-field mutation. -/
def applyTtMut (m : TtMut) (sn : SnState) : SnState × List Emission :=
  match m with
  | .mutTitle s => status_notifier_item_set_tooltip_title sn s
  | .mutBody s => status_notifier_item_set_tooltip_body sn s
  | .mutIconName s => status_notifier_item_set_from_icon_name sn SnIcon.tooltipIcon s
  | .mutIconPix p => status_notifier_item_set_from_pixbuf sn SnIcon.tooltipIcon p

/-- Run a list of tooltip-field mutations, concatenating the traces. -/
def runTtMuts : List TtMut → SnState → SnState × List Emission
  | [], sn => (sn, [])
  | m :: ms, sn =>
      let r := applyTtMut m sn
      let r2 := runTtMuts ms r.1
      (r2.1, r.2 ++ r2.2)

/-- Mutual-exclusion invariant of the icon slots: the tag is set exactly when
the union holds a pixbuf. -/
def IconInv (sn : SnState) : Prop :=
  ∀ i : SnIcon, ((sn.icon i).has_pixbuf = true ↔ ∃ p, (sn.icon i).data = IconData.pixData p)

/-- The DBus signal that announces a change of the given icon slot. -/
def iconWire : SnIcon → WireSignal
  | .mainIcon => .newIcon
  | .attentionIcon => .newAttentionIcon
  | .overlayIcon => .newOverlayIcon
  | .tooltipIcon => .newToolTip

/-- The trace of two identity resolutions performed on two distinct items of
the same process (the marker-existence answer is the same for both since the
process does not move in or out of the sandbox). -/
def twoItemResolutions (flatpakInfoExists : Bool) (a b : SnState) : List Emission :=
  (should_register_name flatpakInfoExists a).2.2 ++
    (should_register_name flatpakInfoExists b).2.2

/-- byteSwap32 on a word given by its four base-256 digits. -/
theorem byteSwap32_digits (d0 d1 d2 d3 : Nat) (h0 : d0 < 256) (h1 : d1 < 256)
    (h2 : d2 < 256) (h3 : d3 < 256) :
    byteSwap32 (d0 + 256 * d1 + 65536 * d2 + 16777216 * d3) =
      d3 + 256 * d2 + 65536 * d1 + 16777216 * d0 := by
  unfold byteSwap32
  have e0 : (d0 + 256 * d1 + 65536 * d2 + 16777216 * d3) % 256 = d0 := by omega
  have e1 : (d0 + 256 * d1 + 65536 * d2 + 16777216 * d3) / 256 % 256 = d1 := by omega
  have e2 : (d0 + 256 * d1 + 65536 * d2 + 16777216 * d3) / 65536 % 256 = d2 := by omega
  have e3 : (d0 + 256 * d1 + 65536 * d2 + 16777216 * d3) / 16777216 % 256 = d3 := by omega
  rw [e0, e1, e2, e3]
  ring

/-- bytesLE on a word given by its four base-256 digits. -/
theorem bytesLE_digits (d0 d1 d2 d3 : Nat) (h0 : d0 < 256) (h1 : d1 < 256)
    (h2 : d2 < 256) (h3 : d3 < 256) :
    bytesLE (d0 + 256 * d1 + 65536 * d2 + 16777216 * d3) = [d0, d1, d2, d3] := by
  unfold bytesLE
  have e0 : (d0 + 256 * d1 + 65536 * d2 + 16777216 * d3) % 256 = d0 := by omega
  have e1 : (d0 + 256 * d1 + 65536 * d2 + 16777216 * d3) / 256 % 256 = d1 := by omega
  have e2 : (d0 + 256 * d1 + 65536 * d2 + 16777216 * d3) / 65536 % 256 = d2 := by omega
  have e3 : (d0 + 256 * d1 + 65536 * d2 + 16777216 * d3) / 16777216 % 256 = d3 := by omega
  rw [e0, e1, e2, e3]

/-- bytesBE on a word given by its four base-256 digits. -/
theorem bytesBE_digits (d0 d1 d2 d3 : Nat) (h0 : d0 < 256) (h1 : d1 < 256)
    (h2 : d2 < 256) (h3 : d3 < 256) :
    bytesBE (d0 + 256 * d1 + 65536 * d2 + 16777216 * d3) = [d3, d2, d1, d0] := by
  unfold bytesBE
  have e0 : (d0 + 256 * d1 + 65536 * d2 + 16777216 * d3) % 256 = d0 := by omega
  have e1 : (d0 + 256 * d1 + 65536 * d2 + 16777216 * d3) / 256 % 256 = d1 := by omega
  have e2 : (d0 + 256 * d1 + 65536 * d2 + 16777216 * d3) / 65536 % 256 = d2 := by omega
  have e3 : (d0 + 256 * d1 + 65536 * d2 + 16777216 * d3) / 16777216 % 256 = d3 := by omega
  rw [e0, e1, e2, e3]

/-- Under 2^32, swapping the four bytes of a word turns its little-endian
layout into its big-endian layout. -/
theorem bytesLE_byteSwap32 (w : Nat) (h : w < 4294967296) :
    bytesLE (byteSwap32 w) = bytesBE w := by
  obtain ⟨d0, d1, d2, d3, rfl, h0, h1, h2, h3⟩ : ∃ d0 d1 d2 d3,
      w = d0 + 256 * d1 + 65536 * d2 + 16777216 * d3 ∧
        d0 < 256 ∧ d1 < 256 ∧ d2 < 256 ∧ d3 < 256 :=
    ⟨w % 256, w / 256 % 256, w / 65536 % 256, w / 16777216,
      by omega, by omega, by omega, by omega, by omega⟩
  rw [byteSwap32_digits d0 d1 d2 d3 h0 h1 h2 h3,
    bytesLE_digits d3 d2 d1 d0 h3 h2 h1 h0,
    bytesBE_digits d0 d1 d2 d3 h0 h1 h2 h3]

/-- Lifting bytesLE_byteSwap32 over a word list. -/
theorem flatMap_swap_eq (l : List Nat) (h : ∀ w ∈ l, w < 4294967296) :
    (l.map byteSwap32).flatMap bytesLE = l.flatMap bytesBE := by
  induction l with
  | nil => rfl
  | cons a t ih =>
      simp only [List.map_cons, List.flatMap_cons]
      rw [bytesLE_byteSwap32 a (h a (by simp)),
        ih (fun w hw => h w (by simp [hw]))]

/-- C4: the icon codec keeps the bitmap's width and height unchanged and emits
every 4-byte pixel word in big-endian byte order on both byte orders of the
host (an explicit per-word swap runs on little-endian hosts); a slot holding a
symbolic name or nothing yields no bitmap entry. -/
theorem c4_icon_codec_big_endian :
    (∀ (le : Bool) (p : Pixbuf), (∀ w ∈ p.argbWords, w < 4294967296) →
      get_builder_for_icon_pixmap le ⟨true, IconData.pixData p⟩ =
        some (p.width, p.height, p.argbWords.flatMap bytesBE))
  ∧ (∀ (le : Bool) (s : Option String),
      get_builder_for_icon_pixmap le ⟨false, IconData.strData s⟩ = none) := by
  constructor
  · intro le p h
    cases le
    · have hb : hostWordBytes false = bytesBE := by
        funext w
        simp [hostWordBytes]
      have he : get_builder_for_icon_pixmap false ⟨true, IconData.pixData p⟩ =
          some (p.width, p.height, p.argbWords.flatMap (hostWordBytes false)) := rfl
      rw [he, hb]
    · have hb : hostWordBytes true = bytesLE := by
        funext w
        simp [hostWordBytes]
      have he : get_builder_for_icon_pixmap true ⟨true, IconData.pixData p⟩ =
          some (p.width, p.height, (p.argbWords.map byteSwap32).flatMap (hostWordBytes true)) :=
        rfl
      rw [he, hb, flatMap_swap_eq p.argbWords h]
  · intro le s
    simp [get_builder_for_icon_pixmap]

/-- C4 witness: a concrete 2-by-1 bitmap on a little-endian host. -/
theorem c4_witness :
    get_builder_for_icon_pixmap true ⟨true, IconData.pixData ⟨2, 1, [16909060, 4275878552]⟩⟩ =
      some (2, 1, [1, 2, 3, 4, 254, 220, 186, 152]) ∧
    get_builder_for_icon_pixmap false ⟨false, IconData.strData (some (("x" : String)))⟩ = none := by
  constructor
  · exact (c4_icon_codec_big_endian.1 true ⟨2, 1, [16909060, 4275878552]⟩
      (by decide)).trans (by decide)
  · exact c4_icon_codec_big_endian.2 false (some (("x" : String)))

/-- C10: the Scroll handler canonicalizes any orientation string that is not a
case-insensitive match of the vertical label to horizontal (only such a match
yields vertical), delivers the scroll domain event, and acknowledges with an
empty reply, as checked on representative inputs. -/
theorem c10_scroll_orientation :
    (∀ (delta : Int) (s : String),
      method_call (Method.scroll delta s) =
        [Emission.domainEvent (DomainSig.scroll delta
          (if g_ascii_strcaseeq s (("vertical" : String)) then ScrollOrientation.vertical
            else ScrollOrientation.horizontal)),
          Emission.methodReply] ∧
      Emission.methodReply ∈ method_call (Method.scroll delta s))
  ∧ scrollOrientationOf (method_call (Method.scroll 1 (("HORIZONTAL" : String)))) =
      some ScrollOrientation.horizontal
  ∧ scrollOrientationOf (method_call (Method.scroll 2 (("hOrIzOnTaL" : String)))) =
      some ScrollOrientation.horizontal
  ∧ scrollOrientationOf (method_call (Method.scroll 3 (("" : String)))) =
      some ScrollOrientation.horizontal
  ∧ scrollOrientationOf (method_call (Method.scroll 4 (("diagonal" : String)))) =
      some ScrollOrientation.horizontal
  ∧ scrollOrientationOf (method_call (Method.scroll 5 (("VeRtIcAl" : String)))) =
      some ScrollOrientation.vertical
  ∧ scrollOrientationOf (method_call (Method.scroll 6 (("vertical" : String)))) =
      some ScrollOrientation.vertical := by
  refine ⟨fun delta s => ⟨rfl, by simp [method_call]⟩, ?_, ?_, ?_, ?_, ?_, ?_⟩ <;> decide

/-- C2: register() is a no-op (same state, no new watch) while REGISTERING or
REGISTERED; from NOT_REGISTERED or FAILED it moves to REGISTERING and arms the
watch on the watcher's well-known name. -/
theorem c2_register_transitions :
    (∀ sn : SnState,
      sn.state = SnRegState.registering ∨ sn.state = SnRegState.registered →
        status_notifier_item_register sn = sn)
  ∧ (∀ sn : SnState,
      sn.state = SnRegState.notRegistered ∨ sn.state = SnRegState.failed →
        (status_notifier_item_register sn).state = SnRegState.registering ∧
        (status_notifier_item_register sn).dbus_watch_id = 1) := by
  constructor
  · intro sn h
    simp [status_notifier_item_register, h]
  · intro sn h
    have hn : ¬ (sn.state = SnRegState.registering ∨ sn.state = SnRegState.registered) := by
      rcases h with h | h <;> simp [h]
    simp [status_notifier_item_register, hn]

/-- C2 witness: concrete items in each of the four states. -/
theorem c2_witness :
    (status_notifier_item_register
        { mkItem (some (("app" : String))) SnCategory.applicationStatus (-1) with
            state := SnRegState.registering, dbus_watch_id := 1 } =
      { mkItem (some (("app" : String))) SnCategory.applicationStatus (-1) with
          state := SnRegState.registering, dbus_watch_id := 1 })
  ∧ (status_notifier_item_register
        { mkItem (some (("app" : String))) SnCategory.applicationStatus (-1) with
            state := SnRegState.registered } =
      { mkItem (some (("app" : String))) SnCategory.applicationStatus (-1) with
          state := SnRegState.registered })
  ∧ ((status_notifier_item_register
        (mkItem (some (("app" : String))) SnCategory.applicationStatus (-1))).state =
      SnRegState.registering ∧
     (status_notifier_item_register
        (mkItem (some (("app" : String))) SnCategory.applicationStatus (-1))).dbus_watch_id = 1)
  ∧ ((status_notifier_item_register
        { mkItem (some (("app" : String))) SnCategory.applicationStatus (-1) with
            state := SnRegState.failed }).state = SnRegState.registering ∧
     (status_notifier_item_register
        { mkItem (some (("app" : String))) SnCategory.applicationStatus (-1) with
            state := SnRegState.failed }).dbus_watch_id = 1) :=
  ⟨c2_register_transitions.1 _ (Or.inl rfl),
   c2_register_transitions.1 _ (Or.inr rfl),
   c2_register_transitions.2 _ (Or.inl rfl),
   c2_register_transitions.2 _ (Or.inr rfl)⟩

/-- Appending traces appends their wire signals. -/
theorem wireOf_append (a b : List Emission) : wireOf (a ++ b) = wireOf a ++ wireOf b := by
  simp [wireOf]

/-- dbus_notify emits nothing when the item is not registered. -/
theorem dbus_notify_nil (sn : SnState) (p : PropId) (h : sn.state ≠ SnRegState.registered) :
    dbus_notify sn p = [] := by
  simp [dbus_notify, h]

/-- C3: no public operation emits a DBus signal while the item is not
registered; setting the status to NeedsAttention while registered emits exactly
one NewStatus signal carrying the NeedsAttention label, and the same call while
registering emits no wire signal. -/
theorem c3_no_wire_unless_registered :
    (∀ (sn : SnState) (op : SnOp), sn.state ≠ SnRegState.registered →
      wireOf (applyOp op sn).2 = [])
  ∧ (∀ sn : SnState, sn.state = SnRegState.registered →
      wireOf (status_notifier_item_set_status sn SnStatus.needsAttention).2 =
        [WireSignal.newStatus (("NeedsAttention" : String))])
  ∧ (∀ sn : SnState, sn.state = SnRegState.registering →
      wireOf (status_notifier_item_set_status sn SnStatus.needsAttention).2 = []) := by
  refine ⟨?_, ?_, ?_⟩
  · intro sn op h
    cases op <;>
      (simp [applyOp, status_notifier_item_set_title, status_notifier_item_set_status,
        status_notifier_item_set_from_icon_name, status_notifier_item_set_from_pixbuf,
        status_notifier_item_set_attention_movie_name, status_notifier_item_set_tooltip_title,
        status_notifier_item_set_tooltip_body, status_notifier_item_set_window_id,
        status_notifier_item_set_item_is_menu, status_notifier_item_freeze_tooltip,
        status_notifier_item_thaw_tooltip, status_notifier_item_set_tooltip,
        status_notifier_item_set_tooltip_with_pixbuf, status_notifier_item_register,
        free_icon, dbus_notify, wireOf, h]
       try (split <;> simp))
  · intro sn h
    simp [status_notifier_item_set_status, dbus_notify, h, wireOf, statusLabel]
  · intro sn h
    simp [status_notifier_item_set_status, dbus_notify, h, wireOf]

/-- C3 witness: a registering item emits nothing for a status change, a
registered item emits exactly the NewStatus signal. -/
theorem c3_witness :
    wireOf (applyOp (SnOp.opSetStatus SnStatus.needsAttention)
        { mkItem (some (("app" : String))) SnCategory.applicationStatus 1 with
            state := SnRegState.registering }).2 = []
  ∧ wireOf (status_notifier_item_set_status
        { mkItem (some (("app" : String))) SnCategory.applicationStatus 1 with
            state := SnRegState.registered } SnStatus.needsAttention).2 =
      [WireSignal.newStatus (("NeedsAttention" : String))]
  ∧ wireOf (status_notifier_item_set_status
        { mkItem (some (("app" : String))) SnCategory.applicationStatus 1 with
            state := SnRegState.registering } SnStatus.needsAttention).2 = [] :=
  ⟨c3_no_wire_unless_registered.1 _ (SnOp.opSetStatus SnStatus.needsAttention) (by decide),
   c3_no_wire_unless_registered.2.1 _ rfl,
   c3_no_wire_unless_registered.2.2 _ rfl⟩

/-- A tooltip-field mutation performed under a nonzero freeze count leaves the
freeze count and the registration state unchanged and emits no wire signal. -/
theorem applyTtMut_frozen (m : TtMut) (sn : SnState) (h : sn.tooltip_freeze ≠ 0) :
    (applyTtMut m sn).1.tooltip_freeze = sn.tooltip_freeze ∧
    (applyTtMut m sn).1.state = sn.state ∧
    wireOf (applyTtMut m sn).2 = [] := by
  cases m <;>
    simp [applyTtMut, status_notifier_item_set_tooltip_title,
      status_notifier_item_set_tooltip_body, status_notifier_item_set_from_icon_name,
      status_notifier_item_set_from_pixbuf, free_icon, wireOf, h]

/-- Running any list of tooltip-field mutations under a nonzero freeze count
leaves the freeze count and the registration state unchanged and emits no wire
signal. -/
theorem runTtMuts_frozen (muts : List TtMut) (sn : SnState) (h : sn.tooltip_freeze ≠ 0) :
    (runTtMuts muts sn).1.tooltip_freeze = sn.tooltip_freeze ∧
    (runTtMuts muts sn).1.state = sn.state ∧
    wireOf (runTtMuts muts sn).2 = [] := by
  induction muts generalizing sn with
  | nil => simp [runTtMuts, wireOf]
  | cons m ms ih =>
      have hm := applyTtMut_frozen m sn h
      have hi := ih (applyTtMut m sn).1 (by rw [hm.1]; exact h)
      refine ⟨?_, ?_, ?_⟩
      · show (runTtMuts ms (applyTtMut m sn).1).1.tooltip_freeze = sn.tooltip_freeze
        rw [hi.1, hm.1]
      · show (runTtMuts ms (applyTtMut m sn).1).1.state = sn.state
        rw [hi.2.1, hm.2.1]
      · show wireOf ((applyTtMut m sn).2 ++ (runTtMuts ms (applyTtMut m sn).1).2) = []
        rw [wireOf_append, hm.2.2, hi.2.2]
        rfl

/-- Thawing at freeze count one drops the count to zero and emits exactly the
NewToolTip signal when the item is registered. -/
theorem thaw_at_one (sn : SnState) (h1 : sn.tooltip_freeze = 1)
    (hs : sn.state = SnRegState.registered) :
    status_notifier_item_thaw_tooltip sn =
      ({ sn with tooltip_freeze := 0 }, [Emission.wire WireSignal.newToolTip], false) := by
  unfold status_notifier_item_thaw_tooltip
  simp [h1, dbus_notify, hs]

/-- C5: a freeze/thaw pair around any number of tooltip-field mutations on a
registered item yields exactly one NewToolTip wire signal in the whole trace,
emitted by the thaw; and thawing at freeze count zero is a contract violation
that changes nothing and emits nothing. -/
theorem c5_tooltip_batch_single_signal :
    (∀ (sn : SnState) (muts : List TtMut),
      sn.tooltip_freeze = 0 → sn.state = SnRegState.registered →
      wireOf ((status_notifier_item_freeze_tooltip sn).2 ++
          (runTtMuts muts (status_notifier_item_freeze_tooltip sn).1).2 ++
          (status_notifier_item_thaw_tooltip
            (runTtMuts muts (status_notifier_item_freeze_tooltip sn).1).1).2.1) =
        [WireSignal.newToolTip] ∧
      (status_notifier_item_thaw_tooltip
        (runTtMuts muts (status_notifier_item_freeze_tooltip sn).1).1).2.2 = false)
  ∧ (∀ sn : SnState, sn.tooltip_freeze = 0 →
      status_notifier_item_thaw_tooltip sn = (sn, [], true)) := by
  constructor
  · intro sn muts hf hs
    have hfz : (status_notifier_item_freeze_tooltip sn).1.tooltip_freeze = 1 := by
      simp [status_notifier_item_freeze_tooltip, hf]
    have hr := runTtMuts_frozen muts (status_notifier_item_freeze_tooltip sn).1
      (by rw [hfz]; exact one_ne_zero)
    have h2f : (runTtMuts muts (status_notifier_item_freeze_tooltip sn).1).1.tooltip_freeze
        = 1 := by
      rw [hr.1, hfz]
    have h2s : (runTtMuts muts (status_notifier_item_freeze_tooltip sn).1).1.state =
        SnRegState.registered := by
      rw [hr.2.1]
      exact hs
    rw [thaw_at_one _ h2f h2s]
    refine ⟨?_, rfl⟩
    rw [wireOf_append, wireOf_append, hr.2.2]
    simp [status_notifier_item_freeze_tooltip, wireOf]
  · intro sn h
    unfold status_notifier_item_thaw_tooltip
    rw [if_pos h]

/-- C5 witness: a batch of two mutations on a concrete registered item, and a
thaw at depth zero on a fresh item. -/
theorem c5_witness :
    (wireOf ((status_notifier_item_freeze_tooltip
          { mkItem (some (("app" : String))) SnCategory.applicationStatus 1 with
              state := SnRegState.registered }).2 ++
        (runTtMuts [TtMut.mutTitle (some (("t" : String))), TtMut.mutBody none]
          (status_notifier_item_freeze_tooltip
            { mkItem (some (("app" : String))) SnCategory.applicationStatus 1 with
                state := SnRegState.registered }).1).2 ++
        (status_notifier_item_thaw_tooltip
          (runTtMuts [TtMut.mutTitle (some (("t" : String))), TtMut.mutBody none]
            (status_notifier_item_freeze_tooltip
              { mkItem (some (("app" : String))) SnCategory.applicationStatus 1 with
                  state := SnRegState.registered }).1).1).2.1) =
      [WireSignal.newToolTip] ∧
      (status_notifier_item_thaw_tooltip
        (runTtMuts [TtMut.mutTitle (some (("t" : String))), TtMut.mutBody none]
          (status_notifier_item_freeze_tooltip
            { mkItem (some (("app" : String))) SnCategory.applicationStatus 1 with
                state := SnRegState.registered }).1).1).2.2 = false)
  ∧ status_notifier_item_thaw_tooltip (mkItem none SnCategory.applicationStatus (-1)) =
      (mkItem none SnCategory.applicationStatus (-1), [], true) :=
  ⟨c5_tooltip_batch_single_signal.1 _ [TtMut.mutTitle (some (("t" : String))), TtMut.mutBody none]
      rfl rfl,
   c5_tooltip_batch_single_signal.2 _ rfl⟩

/-- Setting an icon name rewrites the whole slot: tag cleared, name stored. -/
theorem set_from_icon_name_slot (sn : SnState) (i : SnIcon) (s : Option String) :
    (status_notifier_item_set_from_icon_name sn i s).1.icon i =
      ⟨false, IconData.strData s⟩ := by
  simp [status_notifier_item_set_from_icon_name, free_icon, Function.update_same]

/-- Setting an icon name leaves every other slot untouched. -/
theorem set_from_icon_name_other (sn : SnState) (i j : SnIcon) (hij : j ≠ i)
    (s : Option String) :
    (status_notifier_item_set_from_icon_name sn i s).1.icon j = sn.icon j := by
  simp [status_notifier_item_set_from_icon_name, free_icon, Function.update_noteq hij]

/-- Setting a pixbuf rewrites the whole slot: tag set, pixbuf stored. -/
theorem set_from_pixbuf_slot (sn : SnState) (i : SnIcon) (p : Pixbuf) :
    (status_notifier_item_set_from_pixbuf sn i p).1.icon i = ⟨true, IconData.pixData p⟩ := by
  simp [status_notifier_item_set_from_pixbuf, free_icon, Function.update_same]

/-- Setting a pixbuf leaves every other slot untouched. -/
theorem set_from_pixbuf_other (sn : SnState) (i j : SnIcon) (hij : j ≠ i) (p : Pixbuf) :
    (status_notifier_item_set_from_pixbuf sn i p).1.icon j = sn.icon j := by
  simp [status_notifier_item_set_from_pixbuf, free_icon, Function.update_noteq hij]

/-- Setting an icon name preserves the mutual-exclusion invariant. -/
theorem iconInv_of_name_update (sn : SnState) (i : SnIcon) (s : Option String)
    (h : IconInv sn) : IconInv (status_notifier_item_set_from_icon_name sn i s).1 := by
  intro j
  by_cases hij : j = i
  · subst hij
    rw [set_from_icon_name_slot]
    simp
  · rw [set_from_icon_name_other sn i j hij]
    exact h j

/-- Setting a pixbuf preserves the mutual-exclusion invariant. -/
theorem iconInv_of_pix_update (sn : SnState) (i : SnIcon) (p : Pixbuf)
    (h : IconInv sn) : IconInv (status_notifier_item_set_from_pixbuf sn i p).1 := by
  intro j
  by_cases hij : j = i
  · subst hij
    rw [set_from_pixbuf_slot]
    simp
  · rw [set_from_pixbuf_other sn i j hij]
    exact h j

/-- Thawing never touches the icon slots. -/
theorem thaw_icon (sn : SnState) :
    (status_notifier_item_thaw_tooltip sn).1.icon = sn.icon := by
  unfold status_notifier_item_thaw_tooltip
  split
  · rfl
  · split <;> rfl

/-- C6: an icon slot holds at most one representation at a time: setting a
symbolic name rewrites the slot to the name with the bitmap tag cleared,
setting a bitmap rewrites the slot to the bitmap with the tag set, and every
public operation preserves the tag-union consistency invariant. -/
theorem c6_icon_slot_mutual_exclusion :
    (∀ (sn : SnState) (i : SnIcon) (s : Option String),
      (status_notifier_item_set_from_icon_name sn i s).1.icon i =
        ⟨false, IconData.strData s⟩)
  ∧ (∀ (sn : SnState) (i : SnIcon) (p : Pixbuf),
      (status_notifier_item_set_from_pixbuf sn i p).1.icon i = ⟨true, IconData.pixData p⟩)
  ∧ (∀ (op : SnOp) (sn : SnState), IconInv sn → IconInv (applyOp op sn).1) := by
  refine ⟨set_from_icon_name_slot, set_from_pixbuf_slot, ?_⟩
  intro op sn h
  cases op with
  | opSetFromIconName i s => exact iconInv_of_name_update sn i s h
  | opSetFromPixbuf i p => exact iconInv_of_pix_update sn i p h
  | opSetTooltip a t b =>
      have hi := iconInv_of_name_update
        { sn with tooltip_freeze := sn.tooltip_freeze + 1 } SnIcon.tooltipIcon a h
      intro j
      have hic : (applyOp (SnOp.opSetTooltip a t b) sn).1.icon =
          (status_notifier_item_set_from_icon_name
            { sn with tooltip_freeze := sn.tooltip_freeze + 1 }
            SnIcon.tooltipIcon a).1.icon := by
        show (status_notifier_item_thaw_tooltip _).1.icon = _
        rw [thaw_icon]
        rfl
      rw [hic]
      exact hi j
  | opSetTooltipWithPixbuf p t b =>
      have hi := iconInv_of_pix_update
        { sn with tooltip_freeze := sn.tooltip_freeze + 1 } SnIcon.tooltipIcon p h
      intro j
      have hic : (applyOp (SnOp.opSetTooltipWithPixbuf p t b) sn).1.icon =
          (status_notifier_item_set_from_pixbuf
            { sn with tooltip_freeze := sn.tooltip_freeze + 1 }
            SnIcon.tooltipIcon p).1.icon := by
        show (status_notifier_item_thaw_tooltip _).1.icon = _
        rw [thaw_icon]
        rfl
      rw [hic]
      exact hi j
  | opThawTooltip =>
      intro j
      have hic : (applyOp SnOp.opThawTooltip sn).1.icon = sn.icon := by
        show (status_notifier_item_thaw_tooltip sn).1.icon = sn.icon
        rw [thaw_icon]
      rw [hic]
      exact h j
  | opRegister =>
      intro j
      have hic : (applyOp SnOp.opRegister sn).1.icon = sn.icon := by
        show (status_notifier_item_register sn).icon = sn.icon
        unfold status_notifier_item_register
        split <;> rfl
      rw [hic]
      exact h j
  | opSetTitle s => exact h
  | opSetStatus st => exact h
  | opSetAttentionMovieName s => exact h
  | opSetTooltipTitle s => exact h
  | opSetTooltipBody s => exact h
  | opSetWindowId w => exact h
  | opSetItemIsMenu b => exact h
  | opFreezeTooltip => exact h

/-- C6 witness: a name set over a bitmap clears the bitmap, a bitmap set over a
name clears the name, and the invariant holds after an operation on a fresh
item. -/
theorem c6_witness :
    ((status_notifier_item_set_from_icon_name
        (status_notifier_item_set_from_pixbuf
          (mkItem (some (("app" : String))) SnCategory.applicationStatus 1)
          SnIcon.mainIcon ⟨1, 1, [7]⟩).1
        SnIcon.mainIcon (some (("edit" : String)))).1.icon SnIcon.mainIcon =
      ⟨false, IconData.strData (some (("edit" : String)))⟩)
  ∧ ((status_notifier_item_set_from_pixbuf
        (status_notifier_item_set_from_icon_name
          (mkItem (some (("app" : String))) SnCategory.applicationStatus 1)
          SnIcon.mainIcon (some (("edit" : String)))).1
        SnIcon.mainIcon ⟨1, 1, [7]⟩).1.icon SnIcon.mainIcon =
      ⟨true, IconData.pixData ⟨1, 1, [7]⟩⟩)
  ∧ IconInv (applyOp (SnOp.opSetFromPixbuf SnIcon.overlayIcon ⟨1, 1, [7]⟩)
      (mkItem (some (("app" : String))) SnCategory.applicationStatus 1)).1 :=
  ⟨c6_icon_slot_mutual_exclusion.1 _ SnIcon.mainIcon (some (("edit" : String))),
   c6_icon_slot_mutual_exclusion.2.1 _ SnIcon.mainIcon ⟨1, 1, [7]⟩,
   c6_icon_slot_mutual_exclusion.2.2 (SnOp.opSetFromPixbuf SnIcon.overlayIcon ⟨1, 1, [7]⟩) _
     (by intro i; cases i <;> simp [mkItem])⟩

/-- C7 counterexample: reading Id from an item whose id was never set yields
the raw unset value, not the empty string that the other string properties
fall back to (get_prop passes priv->id through with no guard). -/
theorem c7_counterexample :
    get_prop false (mkItem none SnCategory.applicationStatus (-1)) (("Id" : String)) =
      some (PropValue.str none) ∧
    some (PropValue.str none) ≠ some (PropValue.str (some (("" : String)))) := by
  constructor
  · rfl
  · decide

/-- C7 amended: every string property except Id falls back to the empty string
when its field is unset (for the symbolic-name properties, a slot holding no
name or a NULL name reads as the empty string); each pixmap property is the
empty list when its slot has no bitmap; each symbolic-name property is the
empty string when its slot holds a bitmap; Id alone is handed out raw, with no
fallback. -/
theorem c7_amended_property_defaults :
    ∀ (le : Bool) (sn : SnState),
      (get_prop le sn (("Id" : String)) = some (PropValue.str sn.id))
      ∧ (sn.title = none →
          get_prop le sn (("Title" : String)) = some (PropValue.str (some (("" : String)))))
      ∧ (sn.attention_movie_name = none →
          get_prop le sn (("AttentionMovieName" : String)) =
            some (PropValue.str (some (("" : String)))))
      ∧ ((sn.icon SnIcon.mainIcon).has_pixbuf = false →
          get_prop le sn (("IconPixmap" : String)) = some (PropValue.pixmapList []))
      ∧ ((sn.icon SnIcon.overlayIcon).has_pixbuf = false →
          get_prop le sn (("OverlayIconPixmap" : String)) = some (PropValue.pixmapList []))
      ∧ ((sn.icon SnIcon.attentionIcon).has_pixbuf = false →
          get_prop le sn (("AttentionIconPixmap" : String)) = some (PropValue.pixmapList []))
      ∧ ((sn.icon SnIcon.mainIcon).has_pixbuf = true →
          get_prop le sn (("IconName" : String)) = some (PropValue.str (some (("" : String)))))
      ∧ ((sn.icon SnIcon.overlayIcon).has_pixbuf = true →
          get_prop le sn (("OverlayIconName" : String)) =
            some (PropValue.str (some (("" : String)))))
      ∧ ((sn.icon SnIcon.attentionIcon).has_pixbuf = true →
          get_prop le sn (("AttentionIconName" : String)) =
            some (PropValue.str (some (("" : String)))))
      ∧ (∀ s : Option String, sn.icon SnIcon.mainIcon = ⟨false, IconData.strData s⟩ →
          get_prop le sn (("IconName" : String)) =
            some (PropValue.str (some (s.getD (("" : String))))))
      ∧ (∀ s : Option String, sn.icon SnIcon.overlayIcon = ⟨false, IconData.strData s⟩ →
          get_prop le sn (("OverlayIconName" : String)) =
            some (PropValue.str (some (s.getD (("" : String))))))
      ∧ (∀ s : Option String, sn.icon SnIcon.attentionIcon = ⟨false, IconData.strData s⟩ →
          get_prop le sn (("AttentionIconName" : String)) =
            some (PropValue.str (some (s.getD (("" : String))))))
      ∧ (∀ s : Option String, sn.icon SnIcon.tooltipIcon = ⟨false, IconData.strData s⟩ →
          get_prop le sn (("ToolTip" : String)) =
            some (PropValue.toolTip (some (s.getD (("" : String)))) []
              (sn.tooltip_title.getD (("" : String)))
              (sn.tooltip_body.getD (("" : String)))))
      ∧ ((sn.icon SnIcon.tooltipIcon).has_pixbuf = true →
          get_prop le sn (("ToolTip" : String)) =
            some (PropValue.toolTip (some (("" : String)))
              (pixmap_prop le sn SnIcon.tooltipIcon)
              (sn.tooltip_title.getD (("" : String)))
              (sn.tooltip_body.getD (("" : String))))) := by
  intro le sn
  refine ⟨rfl, ?_, ?_, ?_, ?_, ?_, ?_, ?_, ?_, ?_, ?_, ?_, ?_, ?_⟩
  · intro h
    simp [get_prop, h]
  · intro h
    simp [get_prop, h]
  · intro h
    simp [get_prop, pixmap_prop, get_builder_for_icon_pixmap, h]
  · intro h
    simp [get_prop, pixmap_prop, get_builder_for_icon_pixmap, h]
  · intro h
    simp [get_prop, pixmap_prop, get_builder_for_icon_pixmap, h]
  · intro h
    simp [get_prop, icon_name_prop, h]
  · intro h
    simp [get_prop, icon_name_prop, h]
  · intro h
    simp [get_prop, icon_name_prop, h]
  · intro s h
    simp [get_prop, icon_name_prop, h]
  · intro s h
    simp [get_prop, icon_name_prop, h]
  · intro s h
    simp [get_prop, icon_name_prop, h]
  · intro s h
    simp [get_prop, h]
  · intro h
    simp [get_prop, h]

/-- C7 witness: the defaults evaluated on a fully unset item (including the
empty-string default of the three symbolic-name properties on unset slots) and
on an item whose four slots all hold a bitmap. -/
theorem c7_witness :
    (get_prop false (mkItem none SnCategory.applicationStatus (-1)) (("Id" : String)) =
      some (PropValue.str none))
  ∧ (get_prop false (mkItem none SnCategory.applicationStatus (-1)) (("Title" : String)) =
      some (PropValue.str (some (("" : String)))))
  ∧ (get_prop false (mkItem none SnCategory.applicationStatus (-1))
        (("AttentionMovieName" : String)) = some (PropValue.str (some (("" : String)))))
  ∧ (get_prop false (mkItem none SnCategory.applicationStatus (-1)) (("IconPixmap" : String)) =
      some (PropValue.pixmapList []))
  ∧ (get_prop false (mkItem none SnCategory.applicationStatus (-1))
        (("OverlayIconPixmap" : String)) = some (PropValue.pixmapList []))
  ∧ (get_prop false (mkItem none SnCategory.applicationStatus (-1))
        (("AttentionIconPixmap" : String)) = some (PropValue.pixmapList []))
  ∧ (get_prop false (mkItem none SnCategory.applicationStatus (-1)) (("IconName" : String)) =
      some (PropValue.str (some (("" : String)))))
  ∧ (get_prop false (mkItem none SnCategory.applicationStatus (-1))
        (("OverlayIconName" : String)) = some (PropValue.str (some (("" : String)))))
  ∧ (get_prop false (mkItem none SnCategory.applicationStatus (-1))
        (("AttentionIconName" : String)) = some (PropValue.str (some (("" : String)))))
  ∧ (get_prop false (mkItem none SnCategory.applicationStatus (-1)) (("ToolTip" : String)) =
      some (PropValue.toolTip (some (("" : String))) [] (("" : String)) (("" : String))))
  ∧ (get_prop false
        { mkItem none SnCategory.applicationStatus (-1) with
            icon := fun _ => ⟨true, IconData.pixData ⟨1, 1, [7]⟩⟩ } (("IconName" : String)) =
      some (PropValue.str (some (("" : String)))))
  ∧ (get_prop false
        { mkItem none SnCategory.applicationStatus (-1) with
            icon := fun _ => ⟨true, IconData.pixData ⟨1, 1, [7]⟩⟩ }
        (("OverlayIconName" : String)) = some (PropValue.str (some (("" : String)))))
  ∧ (get_prop false
        { mkItem none SnCategory.applicationStatus (-1) with
            icon := fun _ => ⟨true, IconData.pixData ⟨1, 1, [7]⟩⟩ }
        (("AttentionIconName" : String)) = some (PropValue.str (some (("" : String)))))
  ∧ (get_prop false
        { mkItem none SnCategory.applicationStatus (-1) with
            icon := fun _ => ⟨true, IconData.pixData ⟨1, 1, [7]⟩⟩ } (("ToolTip" : String)) =
      some (PropValue.toolTip (some (("" : String)))
        (pixmap_prop false
          { mkItem none SnCategory.applicationStatus (-1) with
              icon := fun _ => ⟨true, IconData.pixData ⟨1, 1, [7]⟩⟩ } SnIcon.tooltipIcon)
        (("" : String)) (("" : String)))) := by
  have hA := c7_amended_property_defaults false (mkItem none SnCategory.applicationStatus (-1))
  have hB := c7_amended_property_defaults false
    { mkItem none SnCategory.applicationStatus (-1) with
        icon := fun _ => ⟨true, IconData.pixData ⟨1, 1, [7]⟩⟩ }
  exact ⟨hA.1, hA.2.1 rfl, hA.2.2.1 rfl, hA.2.2.2.1 rfl, hA.2.2.2.2.1 rfl,
    hA.2.2.2.2.2.1 rfl,
    hA.2.2.2.2.2.2.2.2.2.1 none rfl,
    hA.2.2.2.2.2.2.2.2.2.2.1 none rfl,
    hA.2.2.2.2.2.2.2.2.2.2.2.1 none rfl,
    hA.2.2.2.2.2.2.2.2.2.2.2.2.1 none rfl,
    hB.2.2.2.2.2.2.1 rfl,
    hB.2.2.2.2.2.2.2.1 rfl,
    hB.2.2.2.2.2.2.2.2.1 rfl,
    hB.2.2.2.2.2.2.2.2.2.2.2.2.2 rfl⟩

/-- C8 counterexample: the item_is_menu setter raises no local property
notification at all (and no wire signal), even on a registered item. -/
theorem c8_counterexample :
    (status_notifier_item_set_item_is_menu
      { mkItem (some (("app" : String))) SnCategory.applicationStatus 1 with
          state := SnRegState.registered } true).2 = [] ∧
    Emission.localNotify PropId.itemIsMenu ∉
      (status_notifier_item_set_item_is_menu
        { mkItem (some (("app" : String))) SnCategory.applicationStatus 1 with
            state := SnRegState.registered } true).2 := by
  refine ⟨rfl, ?_⟩
  simp [status_notifier_item_set_item_is_menu]

/-- C8 amended: title, status, icon and tooltip setters raise one local
notification (the icon setters notify the sibling icon property) and, when the
item is registered, emit the corresponding wire signal, with the tooltip-related
setters suppressed while the freeze count is nonzero; set_window_id and
set_attention_movie_name raise only the local notification (these fields have
no wire signal); set_item_is_menu raises nothing at all. -/
theorem c8_amended_setter_emissions :
    ∀ (sn : SnState) (t : Option String) (st : SnStatus) (i : SnIcon) (s : Option String)
      (p : Pixbuf) (w : Nat) (b : Bool),
      ((status_notifier_item_set_title sn t).2 =
        Emission.localNotify PropId.propTitle ::
          (if sn.state = SnRegState.registered then [Emission.wire WireSignal.newTitle] else []))
      ∧ ((status_notifier_item_set_status sn st).2 =
        Emission.localNotify PropId.propStatus ::
          (if sn.state = SnRegState.registered then
            [Emission.wire (WireSignal.newStatus (statusLabel st))] else []))
      ∧ ((status_notifier_item_set_from_icon_name sn i s).2 =
        Emission.localNotify (prop_pixbuf_from_icon i) ::
          (if (i ≠ SnIcon.tooltipIcon ∨ sn.tooltip_freeze = 0) ∧
              sn.state = SnRegState.registered then
            [Emission.wire (iconWire i)] else []))
      ∧ ((status_notifier_item_set_from_pixbuf sn i p).2 =
        Emission.localNotify (prop_name_from_icon i) ::
          (if (i ≠ SnIcon.tooltipIcon ∨ sn.tooltip_freeze = 0) ∧
              sn.state = SnRegState.registered then
            [Emission.wire (iconWire i)] else []))
      ∧ ((status_notifier_item_set_tooltip_title sn t).2 =
        Emission.localNotify PropId.tooltipTitle ::
          (if sn.tooltip_freeze = 0 ∧ sn.state = SnRegState.registered then
            [Emission.wire WireSignal.newToolTip] else []))
      ∧ ((status_notifier_item_set_tooltip_body sn t).2 =
        Emission.localNotify PropId.tooltipBody ::
          (if sn.tooltip_freeze = 0 ∧ sn.state = SnRegState.registered then
            [Emission.wire WireSignal.newToolTip] else []))
      ∧ ((status_notifier_item_set_window_id sn w).2 = [Emission.localNotify PropId.windowId])
      ∧ ((status_notifier_item_set_attention_movie_name sn s).2 =
          [Emission.localNotify PropId.attentionMovieName])
      ∧ ((status_notifier_item_set_item_is_menu sn b).2 = []) := by
  intro sn t st i s p w b
  refine ⟨?_, ?_, ?_, ?_, ?_, ?_, rfl, rfl, rfl⟩
  · by_cases hs : sn.state = SnRegState.registered <;>
      simp [status_notifier_item_set_title, dbus_notify, hs]
  · by_cases hs : sn.state = SnRegState.registered <;>
      simp [status_notifier_item_set_status, dbus_notify, hs]
  · cases i <;>
      by_cases hs : sn.state = SnRegState.registered <;>
      by_cases hf : sn.tooltip_freeze = 0 <;>
      simp [status_notifier_item_set_from_icon_name, free_icon, dbus_notify, iconWire,
        prop_name_from_icon, prop_pixbuf_from_icon, hs, hf]
  · cases i <;>
      by_cases hs : sn.state = SnRegState.registered <;>
      by_cases hf : sn.tooltip_freeze = 0 <;>
      simp [status_notifier_item_set_from_pixbuf, free_icon, dbus_notify, iconWire,
        prop_name_from_icon, prop_pixbuf_from_icon, hs, hf]
  · by_cases hs : sn.state = SnRegState.registered <;>
      by_cases hf : sn.tooltip_freeze = 0 <;>
      simp [status_notifier_item_set_tooltip_title, dbus_notify, hs, hf]
  · by_cases hs : sn.state = SnRegState.registered <;>
      by_cases hf : sn.tooltip_freeze = 0 <;>
      simp [status_notifier_item_set_tooltip_body, dbus_notify, hs, hf]

/-- C9 counterexample: two items created with the Auto policy in one process
each consult the sandbox marker on their own first resolution: the process-wide
total is two consultations, and the second resolution does consult instead of
reusing a process-wide cache. -/
theorem c9_counterexample :
    envConsults (twoItemResolutions false
        (mkItem (some (("a" : String))) SnCategory.applicationStatus (-1))
        (mkItem (some (("b" : String))) SnCategory.applicationStatus (-1))) = 2 ∧
    envConsults ((should_register_name false
        (mkItem (some (("b" : String))) SnCategory.applicationStatus (-1))).2.2) = 1 ∧
    ¬ (2 ≤ 1) :=
  ⟨rfl, rfl, by decide⟩

/-- C9 amended: the sandbox-marker detection is cached per item, not per
process: an item whose policy field is still -1 consults the marker exactly
once and overwrites the field with the detected 0/1, after which further
resolutions of the same item consult nothing and return the cached answer; an
item whose field is no longer -1 never consults the marker. -/
theorem c9_amended_per_item_cache :
    ∀ (flatpakInfoExists : Bool) (sn : SnState),
      (sn.register_bus_name = -1 →
        envConsults (should_register_name flatpakInfoExists sn).2.2 = 1 ∧
        (should_register_name flatpakInfoExists sn).2.1.register_bus_name =
          (if flatpakInfoExists then 0 else 1) ∧
        envConsults (should_register_name flatpakInfoExists
          (should_register_name flatpakInfoExists sn).2.1).2.2 = 0 ∧
        (should_register_name flatpakInfoExists
          (should_register_name flatpakInfoExists sn).2.1).1 =
          (should_register_name flatpakInfoExists sn).1 ∧
        (should_register_name flatpakInfoExists
          (should_register_name flatpakInfoExists sn).2.1).2.1 =
          (should_register_name flatpakInfoExists sn).2.1)
      ∧ (sn.register_bus_name ≠ -1 →
          envConsults (should_register_name flatpakInfoExists sn).2.2 = 0 ∧
          (should_register_name flatpakInfoExists sn).2.1 = sn) := by
  intro fp sn
  constructor
  · intro h
    cases fp <;> simp [should_register_name, h, envConsults]
  · intro h
    simp [should_register_name, h, envConsults]

/-- C9 witness: a first resolution on a fresh Auto item outside a sandbox, and
a resolution on an item already holding the cached value. -/
theorem c9_witness :
    (envConsults (should_register_name false
        (mkItem (some (("a" : String))) SnCategory.applicationStatus (-1))).2.2 = 1 ∧
      (should_register_name false
        (mkItem (some (("a" : String))) SnCategory.applicationStatus (-1))).2.1.register_bus_name =
        (if false then 0 else 1) ∧
      envConsults (should_register_name false
        (should_register_name false
          (mkItem (some (("a" : String))) SnCategory.applicationStatus (-1))).2.1).2.2 = 0 ∧
      (should_register_name false
        (should_register_name false
          (mkItem (some (("a" : String))) SnCategory.applicationStatus (-1))).2.1).1 =
        (should_register_name false
          (mkItem (some (("a" : String))) SnCategory.applicationStatus (-1))).1 ∧
      (should_register_name false
        (should_register_name false
          (mkItem (some (("a" : String))) SnCategory.applicationStatus (-1))).2.1).2.1 =
        (should_register_name false
          (mkItem (some (("a" : String))) SnCategory.applicationStatus (-1))).2.1)
  ∧ (envConsults (should_register_name false
        (mkItem (some (("b" : String))) SnCategory.applicationStatus 1)).2.2 = 0 ∧
      (should_register_name false
        (mkItem (some (("b" : String))) SnCategory.applicationStatus 1)).2.1 =
        mkItem (some (("b" : String))) SnCategory.applicationStatus 1) :=
  ⟨(c9_amended_per_item_cache false
      (mkItem (some (("a" : String))) SnCategory.applicationStatus (-1))).1 rfl,
   (c9_amended_per_item_cache false
      (mkItem (some (("b" : String))) SnCategory.applicationStatus 1)).2 (by decide)⟩

/-- C1: both non-fatal registration failures (watcher absent, host absent)
emit exactly the failure event, leave the state at REGISTERING (never FAILED),
and leave their subscription armed (the name watch, resp. the host-registered
signal connection with the proxy retained); and from either failure point the
remaining callbacks alone (watcher appearing, host registering, and the
successful completion callbacks) drive the item to REGISTERED with no further
register() call — shown for both identity policies (claiming a bus name or
not). -/
theorem c1_nonfatal_failures_resume :
    ∀ sn : SnState, sn.state = SnRegState.registering →
      ((watcher_vanished sn).2 = [Emission.regFailed SnError.noWatcher]
        ∧ (watcher_vanished sn).1.state = SnRegState.registering
        ∧ (watcher_vanished sn).1.dbus_watch_id = sn.dbus_watch_id)
      ∧ ((proxy_cb sn true false false true).2 = [Emission.regFailed SnError.noHost]
        ∧ (proxy_cb sn true false false true).1.state = SnRegState.registering
        ∧ (proxy_cb sn true false false true).1.dbus_sid = 1
        ∧ (proxy_cb sn true false false true).1.dbus_proxy = true)
      ∧ (sn.register_bus_name = 0 →
          (proxy_cb (watcher_appeared (watcher_vanished sn).1) true true false true).2 = []
          ∧ (proxy_cb (watcher_appeared (watcher_vanished sn).1)
              true true false true).1.dbus_reg_id = 1
          ∧ (proxy_cb (watcher_appeared (watcher_vanished sn).1)
              true true false true).1.dbus_conn = true
          ∧ (register_item_cb
              (proxy_cb (watcher_appeared (watcher_vanished sn).1) true true false true).1
              true).1.state = SnRegState.registered)
      ∧ (sn.register_bus_name = 1 →
          (proxy_cb (watcher_appeared (watcher_vanished sn).1) true true false true).2 = []
          ∧ (proxy_cb (watcher_appeared (watcher_vanished sn).1)
              true true false true).1.dbus_owner_id = 1
          ∧ (register_item_cb
              (name_acquired
                (bus_acquired
                  (proxy_cb (watcher_appeared (watcher_vanished sn).1) true true false true).1
                  true).1)
              true).1.state = SnRegState.registered)
      ∧ (sn.register_bus_name = 0 →
          (watcher_signal (proxy_cb sn true false false true).1
            (("StatusNotifierHostRegistered" : String)) false true).2 = []
          ∧ (watcher_signal (proxy_cb sn true false false true).1
              (("StatusNotifierHostRegistered" : String)) false true).1.dbus_sid = 0
          ∧ (register_item_cb
              (watcher_signal (proxy_cb sn true false false true).1
                (("StatusNotifierHostRegistered" : String)) false true).1
              true).1.state = SnRegState.registered)
      ∧ (sn.register_bus_name = 1 →
          (watcher_signal (proxy_cb sn true false false true).1
            (("StatusNotifierHostRegistered" : String)) false true).2 = []
          ∧ (watcher_signal (proxy_cb sn true false false true).1
              (("StatusNotifierHostRegistered" : String)) false true).1.dbus_owner_id = 1
          ∧ (register_item_cb
              (name_acquired
                (bus_acquired
                  (watcher_signal (proxy_cb sn true false false true).1
                    (("StatusNotifierHostRegistered" : String)) false true).1
                  true).1)
              true).1.state = SnRegState.registered) := by
  intro sn h
  refine ⟨⟨rfl, h, rfl⟩, ⟨rfl, h, rfl, rfl⟩, ?_, ?_, ?_, ?_⟩
  · intro hr
    refine ⟨?_, ?_, ?_, ?_⟩ <;>
      simp [watcher_vanished, watcher_appeared, proxy_cb, dbus_reg_item,
        should_register_name, bus_acquired, name_acquired, register_item_cb,
        dbus_failed, dbus_free, hr]
  · intro hr
    refine ⟨?_, ?_, ?_⟩ <;>
      simp [watcher_vanished, watcher_appeared, proxy_cb, dbus_reg_item,
        should_register_name, bus_acquired, name_acquired, register_item_cb,
        dbus_failed, dbus_free, hr]
  · intro hr
    refine ⟨?_, ?_, ?_⟩ <;>
      simp [watcher_signal, proxy_cb, dbus_reg_item, should_register_name,
        bus_acquired, name_acquired, register_item_cb, dbus_failed, dbus_free, hr]
  · intro hr
    refine ⟨?_, ?_, ?_⟩ <;>
      simp [watcher_signal, proxy_cb, dbus_reg_item, should_register_name,
        bus_acquired, name_acquired, register_item_cb, dbus_failed, dbus_free, hr]

/-- C1 witness: a registering item with the watch armed, for both identity
policies. -/
theorem c1_witness :
    ((watcher_vanished
        { mkItem (some (("app" : String))) SnCategory.applicationStatus 0 with
            state := SnRegState.registering, dbus_watch_id := 1 }).2 =
      [Emission.regFailed SnError.noWatcher]
      ∧ (watcher_vanished
          { mkItem (some (("app" : String))) SnCategory.applicationStatus 0 with
              state := SnRegState.registering, dbus_watch_id := 1 }).1.state =
        SnRegState.registering
      ∧ (watcher_vanished
          { mkItem (some (("app" : String))) SnCategory.applicationStatus 0 with
              state := SnRegState.registering, dbus_watch_id := 1 }).1.dbus_watch_id =
        ({ mkItem (some (("app" : String))) SnCategory.applicationStatus 0 with
            state := SnRegState.registering, dbus_watch_id := 1 } : SnState).dbus_watch_id)
  ∧ ((register_item_cb
        (proxy_cb (watcher_appeared (watcher_vanished
            { mkItem (some (("app" : String))) SnCategory.applicationStatus 0 with
                state := SnRegState.registering, dbus_watch_id := 1 }).1)
          true true false true).1
        true).1.state = SnRegState.registered)
  ∧ ((register_item_cb
        (name_acquired
          (bus_acquired
            (proxy_cb (watcher_appeared (watcher_vanished
                { mkItem (some (("app" : String))) SnCategory.applicationStatus 1 with
                    state := SnRegState.registering, dbus_watch_id := 1 }).1)
              true true false true).1
            true).1)
        true).1.state = SnRegState.registered)
  ∧ ((register_item_cb
        (watcher_signal (proxy_cb
            { mkItem (some (("app" : String))) SnCategory.applicationStatus 0 with
                state := SnRegState.registering, dbus_watch_id := 1 }
            true false false true).1
          (("StatusNotifierHostRegistered" : String)) false true).1
        true).1.state = SnRegState.registered) :=
  ⟨(c1_nonfatal_failures_resume
      { mkItem (some (("app" : String))) SnCategory.applicationStatus 0 with
          state := SnRegState.registering, dbus_watch_id := 1 } rfl).1,
   ((c1_nonfatal_failures_resume
      { mkItem (some (("app" : String))) SnCategory.applicationStatus 0 with
          state := SnRegState.registering, dbus_watch_id := 1 } rfl).2.2.1 rfl).2.2.2,
   ((c1_nonfatal_failures_resume
      { mkItem (some (("app" : String))) SnCategory.applicationStatus 1 with
          state := SnRegState.registering, dbus_watch_id := 1 } rfl).2.2.2.1 rfl).2.2,
   ((c1_nonfatal_failures_resume
      { mkItem (some (("app" : String))) SnCategory.applicationStatus 0 with
          state := SnRegState.registering, dbus_watch_id := 1 } rfl).2.2.2.2.1 rfl).2.2⟩
